import Mathlib

/-!
# owl: acceleration-structure groups and fatal device-call checks

A shallow embedding of `owl/ng/cpp/Group.cpp` (the host-side group objects
`Group`, `GeomGroup`, `InstanceGroup`, `TrianglesGroup`) and of the checking
macros of `owl/optix/common.h`, followed by the properties proved about them.

Conventions of the embedding

* A C++ member function that mutates `*this` and the device behind
  `context->llo` becomes a function from the pair (context, object) to the new
  pair.  The device is represented by the record of the `llo*` calls it has
  received, oldest first.
* `Geom::SP` is a shared pointer: `Option Geom`, with `none` the null pointer.
* `int` values are integers (`Int`), `size_t` values are naturals (`Nat`).  No
  arithmetic is performed on them in this code; the only mixed comparison,
  `childID < geometries.size()`, is reached after `assert(childID >= 0)` has
  passed, where the conversion of `childID` to `size_t` keeps its value.
* `assert` is the checking `assert` of `<cassert>` (no `NDEBUG`): a false
  condition aborts the process at that point.
-/

namespace owl

/-! ## Data model -/

/-- The part of a geometry object that `Group.cpp` reads: its identifier
(`child->ID`). -/
structure Geom where
  ID : Int
deriving DecidableEq, Repr

/-- The shared pointer type `Geom::SP`; `none` is the null pointer, which is
what a value-initialised vector slot holds. -/
abbrev GeomSP := Option Geom

/-- One call received by the low-level device layer (`context->llo`), with the
arguments that follow the `llo` handle. -/
inductive LloCall where
  | lloGroupAccelBuild (groupID : Int)
  | lloGeomGroupSetChild (groupID : Int) (childID : Int) (geomID : Int)
  | lloTrianglesGeomGroupCreate (groupID : Int) (initial : Option (List Int)) (numChildren : Nat)
deriving DecidableEq, Repr

/-- The context as seen from `Group.cpp`: the device behind `context->llo`,
kept as the record of calls it has received, and the group collection
`context->groups`, kept as the identifiers registered in it. -/
structure Context where
  llo : List LloCall
  groups : List Int
deriving DecidableEq, Repr

/-- The base class `Group`: the identifier `this->ID`. -/
structure Group where
  ID : Int
deriving DecidableEq, Repr

/-- The class `GeomGroup`: a `Group` with the vector `geometries`. -/
structure GeomGroup extends Group where
  geometries : List GeomSP
deriving DecidableEq, Repr

/-- The class `InstanceGroup`: a `Group` with the vector `children` of shared
pointers to groups. -/
structure InstanceGroup extends Group where
  children : List (Option Group)
deriving DecidableEq, Repr

/-- The class `TrianglesGroup`: a `GeomGroup` without further members. -/
structure TrianglesGroup extends GeomGroup where
deriving DecidableEq, Repr

/-- The ways in which `GeomGroup::setChild` stops the process. -/
inductive Fault where
  /-- Failure of `assert(childID >= 0)`. -/
  | childIDNegative
  /-- Failure of `assert(childID < geometries.size())`. -/
  | childIDNotBelowSize
  /-- Evaluation of `child->ID` on a null `child`. -/
  | nullChild
deriving DecidableEq, Repr

/-- The two assertion failures are the out-of-range conditions. -/
def Fault.isOutOfRange : Fault → Bool
  | .childIDNegative => true
  | .childIDNotBelowSize => true
  | .nullChild => false

/-- Result of running host code from a state: it returns with the new state,
or the process stops with a fault, in the state reached at that point. -/
inductive Outcome (σ : Type) where
  | ok (s : σ)
  | aborted (f : Fault) (s : σ)
deriving DecidableEq, Repr

/-- The state in which the run ended, whether it returned or stopped. -/
def Outcome.state {σ : Type} : Outcome σ → σ
  | .ok s => s
  | .aborted _ s => s

/-- Whether the run returned normally. -/
def Outcome.isOk {σ : Type} : Outcome σ → Bool
  | .ok _ => true
  | .aborted _ _ => false

/-! ## Operations of `Group.cpp` -/

/-- Modelled from the spec: the base constructor `Group(context, context->groups)`,
declared in `Group.h`, which is not among the sources.  Per the spec it obtains
the group's identifier through the context and registers the group with the
context's group collection; the identifier handed out is the argument `ID`.  It
makes no device call. -/
def Group.create (ctx : Context) (ID : Int) : Context × Group :=
  ({ ctx with groups := ctx.groups ++ [ID] }, { ID := ID })

/-- The method `Group::buildAccel`: one call `lloGroupAccelBuild(context->llo, this->ID)`. -/
def Group.buildAccel (ctx : Context) (self : Group) : Context × Group :=
  ({ ctx with llo := ctx.llo ++ [LloCall.lloGroupAccelBuild self.ID] }, self)

/-- The inherited method `buildAccel` called on a `GeomGroup`: it runs on the
`Group` base subobject. -/
def GeomGroup.buildAccel (ctx : Context) (self : GeomGroup) : Context × GeomGroup :=
  let r := Group.buildAccel ctx self.toGroup
  (r.1, { self with toGroup := r.2 })

/-- The inherited method `buildAccel` called on an `InstanceGroup`. -/
def InstanceGroup.buildAccel (ctx : Context) (self : InstanceGroup) : Context × InstanceGroup :=
  let r := Group.buildAccel ctx self.toGroup
  (r.1, { self with toGroup := r.2 })

/-- The method `GeomGroup::setChild(int childID, Geom::SP child)`: two
assertions, the store into `geometries[childID]`, then the device call with
`child->ID`. -/
def GeomGroup.setChild (ctx : Context) (self : GeomGroup) (childID : Int) (child : GeomSP) :
    Outcome (Context × GeomGroup) :=
  if ¬ (childID ≥ 0) then
    Outcome.aborted Fault.childIDNegative (ctx, self)
  else if ¬ (childID.toNat < self.geometries.length) then
    Outcome.aborted Fault.childIDNotBelowSize (ctx, self)
  else
    let self1 : GeomGroup := { self with geometries := self.geometries.set childID.toNat child }
    match child with
    | none => Outcome.aborted Fault.nullChild (ctx, self1)
    | some g =>
      Outcome.ok
        ({ ctx with llo := ctx.llo ++ [LloCall.lloGeomGroupSetChild self.ID childID g.ID] }, self1)

/-- The constructor `GeomGroup::GeomGroup(context, numChildren)`: the base
constructor, then `geometries(numChildren)`, a vector of `numChildren` null
pointers. -/
def GeomGroup.create (ctx : Context) (ID : Int) (numChildren : Nat) : Context × GeomGroup :=
  let r := Group.create ctx ID
  (r.1, { toGroup := r.2, geometries := List.replicate numChildren none })

/-- The constructor `InstanceGroup::InstanceGroup(context, numChildren)`: the
base constructor, then `children(numChildren)`. -/
def InstanceGroup.create (ctx : Context) (ID : Int) (numChildren : Nat) :
    Context × InstanceGroup :=
  let r := Group.create ctx ID
  (r.1, { toGroup := r.2, children := List.replicate numChildren none })

/-- The constructor `TrianglesGroup::TrianglesGroup(context, numChildren)`: the
`GeomGroup` constructor, then
`lloTrianglesGeomGroupCreate(context->llo, this->ID, nullptr, numChildren)`. -/
def TrianglesGroup.create (ctx : Context) (ID : Int) (numChildren : Nat) :
    Context × TrianglesGroup :=
  let r := GeomGroup.create ctx ID numChildren
  ({ r.1 with llo := r.1.llo ++ [LloCall.lloTrianglesGeomGroupCreate r.2.ID none numChildren] },
   { toGeomGroup := r.2 })

/-! ## Client programs: sequences of calls on one geometry group -/

/-- One call made on a geometry group: `setChild(childID, child)` with a
geometry object, or `buildAccel()`. -/
inductive Op where
  | setChild (childID : Int) (child : Geom)
  | buildAccel
deriving DecidableEq, Repr

/-- Run one call from the state (context, group). -/
def GeomGroup.step (s : Context × GeomGroup) : Op → Outcome (Context × GeomGroup)
  | Op.setChild childID child => GeomGroup.setChild s.1 s.2 childID (some child)
  | Op.buildAccel => Outcome.ok (GeomGroup.buildAccel s.1 s.2)

/-- Run a sequence of calls in order; a call that stops the process ends the
run, the remaining calls are not made. -/
def GeomGroup.run : List Op → Context × GeomGroup → Outcome (Context × GeomGroup)
  | [], s => Outcome.ok s
  | op :: ops, s =>
    match GeomGroup.step s op with
    | Outcome.ok s1 => GeomGroup.run ops s1
    | Outcome.aborted f s1 => Outcome.aborted f s1

/-- The geometry identifiers of the device set-child calls recorded for group
`groupID` and index `childID`, oldest first. -/
def setChildCalls (log : List LloCall) (groupID : Int) (childID : Int) : List Int :=
  log.filterMap fun c =>
    match c with
    | LloCall.lloGeomGroupSetChild g i geomID =>
      if g = groupID ∧ i = childID then some geomID else none
    | _ => none

/-- Whether a device call is a build call. -/
def LloCall.isBuild : LloCall → Bool
  | LloCall.lloGroupAccelBuild _ => true
  | _ => false

/-- Whether a device call is a set-child call. -/
def LloCall.isSetChild : LloCall → Bool
  | LloCall.lloGeomGroupSetChild _ _ _ => true
  | _ => false

/-- Host bookkeeping mirrors the device for group `ID` with `n` slots: the
state keeps the identifier and the slot count, the identifier held in slot `i`
(none for a null slot) is the geometry identifier of the most recent device
set-child call for `(ID, i)` (none when there is no such call), and every
device set-child call for `ID` carries an index in `[0, n)`. -/
def Mirror (ID : Int) (n : Nat) (s : Context × GeomGroup) : Prop :=
  s.2.ID = ID ∧ s.2.geometries.length = n ∧
  (∀ i : Nat, i < n →
    (s.2.geometries[i]?).join.map Geom.ID = (setChildCalls s.1.llo ID (i : Int)).getLast?) ∧
  (∀ idx geomID : Int, LloCall.lloGeomGroupSetChild ID idx geomID ∈ s.1.llo →
    0 ≤ idx ∧ idx < (n : Int))

/-! ## The checking macros of `common.h`

A checked call is a function from the state of the device to a result code and
the new state.  The process keeps the record of what `fprintf(stderr, ...)` has
written: each entry is the format string with the arguments passed after it.
The success constants `OPTIX_SUCCESS` and `cudaSuccess` and the function
`cudaGetErrorString` belong to the OptiX and CUDA headers and are parameters. -/

/-- One argument passed to `fprintf` after the format string, tagged with the
source expression it is the value of. -/
inductive Arg where
  /-- The stringified call `#call`. -/
  | callText (text : String)
  /-- The result code `res` or `error`, printed with `%d`. -/
  | code (value : Int)
  /-- The line number `__LINE__`. -/
  | line (n : Nat)
  /-- The file name `__FILE__`. -/
  | file (name : String)
  /-- The text `cudaGetErrorString( error )`. -/
  | errorString (text : String)
  /-- The variable `log` of the enclosing scope. -/
  | log (text : String)
  /-- The macro argument `where`. -/
  | location (text : String)
deriving DecidableEq, Repr

/-- One `fprintf( stderr, fmt, args... )`. -/
structure Diag where
  fmt : String
  args : List Arg
deriving DecidableEq, Repr

/-- The process as the checks see it: the device state and what has been
written to `stderr`, oldest first. -/
structure Process (δ : Type) where
  dev : δ
  stderr : List Diag

/-- Where the process stands after a check: still running, past the check, or
terminated by `exit( status )`. -/
inductive Step (δ : Type) where
  | running (p : Process δ)
  | exited (status : Int) (p : Process δ)

/-- Whether the check terminated the process. -/
def Step.terminated {δ : Type} : Step δ → Bool
  | Step.running _ => false
  | Step.exited _ _ => true

/-- The process state after the check. -/
def Step.proc {δ : Type} : Step δ → Process δ
  | Step.running p => p
  | Step.exited _ p => p

/-- The diagnostics a check wrote: what `stderr` holds after it beyond what it
held before. -/
def written {δ : Type} (p : Process δ) (out : Step δ) : List Diag :=
  out.proc.stderr.drop p.stderr.length

/-- Some diagnostic among `ds` was passed the argument `a`. -/
def carries (ds : List Diag) (a : Arg) : Prop :=
  ∃ d ∈ ds, a ∈ d.args

/-- The macro `OPTIX_CHECK( call )`, with `callText` the text `#call` and `line`
the value of `__LINE__` where it is used. -/
def OPTIX_CHECK {δ : Type} (OPTIX_SUCCESS : Int) (call : δ → Int × δ) (callText : String)
    (line : Nat) (p : Process δ) : Step δ :=
  let r := call p.dev
  let res := r.1
  if res ≠ OPTIX_SUCCESS then
    Step.exited 2
      { dev := r.2
        stderr := p.stderr ++
          [{ fmt := "Optix call (%s) failed with code %d (line %d)\n"
             args := [Arg.callText callText, Arg.code res, Arg.line line] }] }
  else
    Step.running { dev := r.2, stderr := p.stderr }

/-- The macro `OPTIX_CHECK_LOG( call )`; `log` is the variable of that name in
scope where the macro is used. -/
def OPTIX_CHECK_LOG {δ : Type} (OPTIX_SUCCESS : Int) (call : δ → Int × δ) (callText : String)
    (line : Nat) (log : String) (p : Process δ) : Step δ :=
  let r := call p.dev
  let res := r.1
  if res ≠ OPTIX_SUCCESS then
    Step.exited 2
      { dev := r.2
        stderr := p.stderr ++
          [{ fmt := "Optix call (%s) failed with code %d (line %d)\n"
             args := [Arg.callText callText, Arg.code res, Arg.line line] },
           { fmt := "Log:\n%s\n"
             args := [Arg.log log] }] }
  else
    Step.running { dev := r.2, stderr := p.stderr }

/-- The macro `CUDA_CHECK( call )`. -/
def CUDA_CHECK {δ : Type} (cudaSuccess : Int) (cudaGetErrorString : Int → String)
    (call : δ → Int × δ) (callText : String) (line : Nat) (p : Process δ) : Step δ :=
  let r := call p.dev
  let error := r.1
  if error ≠ cudaSuccess then
    Step.exited 2
      { dev := r.2
        stderr := p.stderr ++
          [{ fmt := "CUDA call (%s) failed with code %d (line %d): %s\n"
             args := [Arg.callText callText, Arg.code error, Arg.line line,
               Arg.errorString (cudaGetErrorString error)] }] }
  else
    Step.running { dev := r.2, stderr := p.stderr }

/-- The macro `CUDA_CHECK2( where, call )`; the argument `where` is a C string
pointer, `none` when null. -/
def CUDA_CHECK2 {δ : Type} (cudaSuccess : Int) (cudaGetErrorString : Int → String)
    (loc : Option String) (call : δ → Int × δ) (callText : String) (line : Nat)
    (p : Process δ) : Step δ :=
  let r := call p.dev
  let error := r.1
  if error ≠ cudaSuccess then
    let first : List Diag :=
      match loc with
      | some w =>
        [{ fmt := "at %s: CUDA call (%s) failed with code %d (line %d): %s\n"
           args := [Arg.location w, Arg.callText callText, Arg.code error, Arg.line line,
             Arg.errorString (cudaGetErrorString error)] }]
      | none => []
    Step.exited 2
      { dev := r.2
        stderr := p.stderr ++ first ++
          [{ fmt := "CUDA call (%s) failed with code %d (line %d): %s\n"
             args := [Arg.callText callText, Arg.code error, Arg.line line,
               Arg.errorString (cudaGetErrorString error)] }] }
  else
    Step.running { dev := r.2, stderr := p.stderr }

/-- The macro `CUDA_SYNC_CHECK()`: `cudaDeviceSynchronize()` is called and its
value dropped, then the value of `cudaGetLastError()` is checked. -/
def CUDA_SYNC_CHECK {δ : Type} (cudaSuccess : Int) (cudaGetErrorString : Int → String)
    (cudaDeviceSynchronize cudaGetLastError : δ → Int × δ) (file : String) (line : Nat)
    (p : Process δ) : Step δ :=
  let r0 := cudaDeviceSynchronize p.dev
  let r := cudaGetLastError r0.2
  let error := r.1
  if error ≠ cudaSuccess then
    Step.exited 2
      { dev := r.2
        stderr := p.stderr ++
          [{ fmt := "error (%s: line %d): %s\n"
             args := [Arg.file file, Arg.line line,
               Arg.errorString (cudaGetErrorString error)] }] }
  else
    Step.running { dev := r.2, stderr := p.stderr }

/-- What a fatal check does with the result `res` of its checked call, which
left the device in state `dev1`: it terminates the process exactly when `res`
is not the success code; it then exits with status 2 having appended at least
one diagnostic to `stderr`; otherwise the process runs on with `stderr`
untouched.  In both cases the device is in the state the one evaluation of the
call left. -/
def FatalCheck {δ : Type} (res success : Int) (dev1 : δ) (p : Process δ) (out : Step δ) :
    Prop :=
  (out.terminated = true ↔ res ≠ success) ∧
  (res ≠ success →
    ∃ (d : Diag) (ds : List Diag),
      out = Step.exited 2 { dev := dev1, stderr := p.stderr ++ d :: ds }) ∧
  (res = success → out = Step.running { dev := dev1, stderr := p.stderr })

/-! ## Properties of `setChild`, the constructors and `buildAccel` -/

/-- In range and with a geometry object, `setChild` returns with the slot
overwritten and the set-child call appended to the device record. -/
theorem setChild_ok_eq (ctx : Context) (self : GeomGroup) (childID : Int) (g : Geom)
    (h0 : 0 ≤ childID) (h1 : childID < self.geometries.length) :
    GeomGroup.setChild ctx self childID (some g) =
      Outcome.ok
        ({ ctx with llo := ctx.llo ++ [LloCall.lloGeomGroupSetChild self.ID childID g.ID] },
         { self with geometries := self.geometries.set childID.toNat (some g) }) := by
  have h2 : childID.toNat < self.geometries.length := by omega
  simp [GeomGroup.setChild, h0, h2]

/-- C1: for every child index outside `[0, numChildren)` and every child
argument, `setChild` stops with an out-of-range fault in exactly the state it
was called in: context (device record included) and group (every slot and the
slot count) are unchanged. -/
theorem setChild_out_of_range (ctx : Context) (self : GeomGroup) (childID : Int)
    (child : GeomSP)
    (hout : childID < 0 ∨ (self.geometries.length : Int) ≤ childID) :
    ∃ f : Fault, f.isOutOfRange = true ∧
      GeomGroup.setChild ctx self childID child = Outcome.aborted f (ctx, self) := by
  by_cases hneg : childID < 0
  · refine ⟨Fault.childIDNegative, rfl, ?_⟩
    have : ¬ (childID ≥ 0) := by omega
    simp [GeomGroup.setChild, this]
  · refine ⟨Fault.childIDNotBelowSize, rfl, ?_⟩
    have h0 : childID ≥ 0 := by omega
    have h2 : ¬ (childID.toNat < self.geometries.length) := by omega
    simp [GeomGroup.setChild, h0, h2]

theorem setChild_out_of_range_witness :
    ((2 : Int) < 0 ∨ (([none, none] : List GeomSP).length : Int) ≤ 2) ∧
    ∃ f : Fault, f.isOutOfRange = true ∧
      GeomGroup.setChild ⟨[], [5]⟩ ⟨⟨5⟩, [none, none]⟩ 2 (some ⟨9⟩) =
        Outcome.aborted f (⟨[], [5]⟩, ⟨⟨5⟩, [none, none]⟩) :=
  ⟨by decide, setChild_out_of_range ⟨[], [5]⟩ ⟨⟨5⟩, [none, none]⟩ 2 (some ⟨9⟩) (by decide)⟩

/-- C2: for every child index in `[0, numChildren)` and every geometry `g`,
`setChild` returns normally; afterwards the slot at the index holds `g`, every
other slot, the slot count and the group identifier are unchanged, and the
device record has grown by exactly one call, the set-child call with
`(ID, childID, g.ID)`, so that no build call was added. -/
theorem setChild_in_range (ctx : Context) (self : GeomGroup) (childID : Int) (g : Geom)
    (h0 : 0 ≤ childID) (h1 : childID < self.geometries.length) :
    ∃ (ctx1 : Context) (self1 : GeomGroup),
      GeomGroup.setChild ctx self childID (some g) = Outcome.ok (ctx1, self1) ∧
      self1.geometries[childID.toNat]? = some (some g) ∧
      (∀ j : Nat, j ≠ childID.toNat → self1.geometries[j]? = self.geometries[j]?) ∧
      self1.geometries.length = self.geometries.length ∧
      self1.ID = self.ID ∧
      ctx1.llo = ctx.llo ++ [LloCall.lloGeomGroupSetChild self.ID childID g.ID] ∧
      ctx1.groups = ctx.groups ∧
      (∀ c ∈ ctx1.llo.drop ctx.llo.length, c.isBuild = false) := by
  have h2 : childID.toNat < self.geometries.length := by omega
  refine ⟨_, _, setChild_ok_eq ctx self childID g h0 h1, ?_, ?_, ?_, rfl, rfl, rfl, ?_⟩
  · simp [List.getElem?_set, h2]
  · intro j hj
    simp [List.getElem?_set, Ne.symm hj]
  · simp
  · simp [LloCall.isBuild]

theorem setChild_in_range_witness :
    ∃ (ctx1 : Context) (self1 : GeomGroup),
      GeomGroup.setChild ⟨[], [5]⟩ ⟨⟨5⟩, [none, none]⟩ 1 (some ⟨9⟩) = Outcome.ok (ctx1, self1) ∧
      self1.geometries[(1 : Int).toNat]? = some (some ⟨9⟩) ∧
      (∀ j : Nat, j ≠ (1 : Int).toNat →
        self1.geometries[j]? = ([none, none] : List GeomSP)[j]?) ∧
      self1.geometries.length = ([none, none] : List GeomSP).length ∧
      self1.ID = 5 ∧
      ctx1.llo = [] ++ [LloCall.lloGeomGroupSetChild 5 1 9] ∧
      ctx1.groups = [5] ∧
      (∀ c ∈ ctx1.llo.drop 0, c.isBuild = false) :=
  setChild_in_range ⟨[], [5]⟩ ⟨⟨5⟩, [none, none]⟩ 1 ⟨9⟩ (by decide) (by decide)

/-- C3: for every in-range child index and every two geometries `a` and `b`,
`setChild(childID, a)` followed by `setChild(childID, b)` returns normally and
leaves exactly the slots that `setChild(childID, b)` alone leaves: the slot at
the index holds `b`, the slot count is the original one, every other slot is
as it was before the two calls, and `a` occupies a slot afterwards only where
the single call of `b` puts or leaves it (the indexed slot when `a = b`, or
another slot that held `a` before): the first assignment leaves no trace. -/
theorem setChild_twice (ctx : Context) (self : GeomGroup) (childID : Int) (a b : Geom)
    (h0 : 0 ≤ childID) (h1 : childID < self.geometries.length) :
    ∃ (c1 c2 c3 : Context) (s1 s2 s3 : GeomGroup),
      GeomGroup.setChild ctx self childID (some a) = Outcome.ok (c1, s1) ∧
      GeomGroup.setChild c1 s1 childID (some b) = Outcome.ok (c2, s2) ∧
      GeomGroup.setChild ctx self childID (some b) = Outcome.ok (c3, s3) ∧
      s2.geometries = s3.geometries ∧
      s2.geometries[childID.toNat]? = some (some b) ∧
      s2.geometries.length = self.geometries.length ∧
      (∀ j : Nat, j ≠ childID.toNat → s2.geometries[j]? = self.geometries[j]?) ∧
      (∀ j : Nat, s2.geometries[j]? = some (some a) →
        (j = childID.toNat ∧ a = b) ∨
        (j ≠ childID.toNat ∧ self.geometries[j]? = some (some a))) := by
  have h2 : childID.toNat < self.geometries.length := by omega
  have e1 := setChild_ok_eq ctx self childID a h0 h1
  have h1b : childID <
      (({ self with geometries := self.geometries.set childID.toNat (some a) } :
        GeomGroup).geometries.length : Int) := by
    simpa using h1
  have e2 := setChild_ok_eq
    { ctx with llo := ctx.llo ++ [LloCall.lloGeomGroupSetChild self.ID childID a.ID] }
    { self with geometries := self.geometries.set childID.toNat (some a) } childID b h0 h1b
  have e3 := setChild_ok_eq ctx self childID b h0 h1
  refine ⟨_, _, _, _, _, _, e1, e2, e3, ?_, ?_, ?_, ?_, ?_⟩
  · simp [List.set_set]
  · simp [List.getElem?_set, h2]
  · simp
  · intro j hj
    simp [List.getElem?_set, Ne.symm hj]
  · intro j hj
    by_cases hji : j = childID.toNat
    · left
      subst hji
      simp [List.getElem?_set, h2] at hj
      exact ⟨rfl, hj.symm⟩
    · right
      refine ⟨hji, ?_⟩
      simpa [List.getElem?_set, Ne.symm hji] using hj

theorem setChild_twice_witness :
    ∃ (c1 c2 c3 : Context) (s1 s2 s3 : GeomGroup),
      GeomGroup.setChild ⟨[], [5]⟩ ⟨⟨5⟩, [none, some ⟨7⟩]⟩ 0 (some ⟨7⟩) = Outcome.ok (c1, s1) ∧
      GeomGroup.setChild c1 s1 0 (some ⟨8⟩) = Outcome.ok (c2, s2) ∧
      GeomGroup.setChild ⟨[], [5]⟩ ⟨⟨5⟩, [none, some ⟨7⟩]⟩ 0 (some ⟨8⟩) = Outcome.ok (c3, s3) ∧
      s2.geometries = s3.geometries ∧
      s2.geometries[(0 : Int).toNat]? = some (some ⟨8⟩) ∧
      s2.geometries.length = ([none, some ⟨7⟩] : List GeomSP).length ∧
      (∀ j : Nat, j ≠ (0 : Int).toNat →
        s2.geometries[j]? = ([none, some ⟨7⟩] : List GeomSP)[j]?) ∧
      (∀ j : Nat, s2.geometries[j]? = some (some ⟨7⟩) →
        (j = (0 : Int).toNat ∧ (⟨7⟩ : Geom) = ⟨8⟩) ∨
        (j ≠ (0 : Int).toNat ∧ ([none, some ⟨7⟩] : List GeomSP)[j]? = some (some ⟨7⟩))) :=
  setChild_twice ⟨[], [5]⟩ ⟨⟨5⟩, [none, some ⟨7⟩]⟩ 0 ⟨7⟩ ⟨8⟩ (by decide) (by decide)

/-- C4: for every `numChildren`, the `GeomGroup` and the `InstanceGroup`
constructors yield a child sequence of length exactly `numChildren` in which
every index below `numChildren` is addressable and holds the null pointer and
no index from `numChildren` on is addressable; with `numChildren = 0` the
sequence is empty. -/
theorem create_slots (ctx : Context) (ID : Int) (numChildren : Nat) :
    ((GeomGroup.create ctx ID numChildren).2.geometries.length = numChildren ∧
      (∀ i : Nat, i < numChildren →
        (GeomGroup.create ctx ID numChildren).2.geometries[i]? = some none) ∧
      (∀ i : Nat, numChildren ≤ i →
        (GeomGroup.create ctx ID numChildren).2.geometries[i]? = none) ∧
      (GeomGroup.create ctx ID 0).2.geometries = []) ∧
    ((InstanceGroup.create ctx ID numChildren).2.children.length = numChildren ∧
      (∀ i : Nat, i < numChildren →
        (InstanceGroup.create ctx ID numChildren).2.children[i]? = some none) ∧
      (∀ i : Nat, numChildren ≤ i →
        (InstanceGroup.create ctx ID numChildren).2.children[i]? = none) ∧
      (InstanceGroup.create ctx ID 0).2.children = []) := by
  refine ⟨⟨?_, ?_, ?_, ?_⟩, ⟨?_, ?_, ?_, ?_⟩⟩
  · simp [GeomGroup.create]
  · intro i hi
    simp [GeomGroup.create, List.getElem?_replicate, hi]
  · intro i hi
    simp [GeomGroup.create, List.getElem?_replicate, Nat.not_lt.mpr hi]
  · simp [GeomGroup.create]
  · simp [InstanceGroup.create]
  · intro i hi
    simp [InstanceGroup.create, List.getElem?_replicate, hi]
  · intro i hi
    simp [InstanceGroup.create, List.getElem?_replicate, Nat.not_lt.mpr hi]
  · simp [InstanceGroup.create]

theorem create_slots_witness :
    ((GeomGroup.create ⟨[], []⟩ 5 3).2.geometries.length = 3 ∧
      (∀ i : Nat, i < 3 → (GeomGroup.create ⟨[], []⟩ 5 3).2.geometries[i]? = some none) ∧
      (∀ i : Nat, 3 ≤ i → (GeomGroup.create ⟨[], []⟩ 5 3).2.geometries[i]? = none) ∧
      (GeomGroup.create ⟨[], []⟩ 5 0).2.geometries = []) ∧
    ((InstanceGroup.create ⟨[], []⟩ 5 3).2.children.length = 3 ∧
      (∀ i : Nat, i < 3 → (InstanceGroup.create ⟨[], []⟩ 5 3).2.children[i]? = some none) ∧
      (∀ i : Nat, 3 ≤ i → (InstanceGroup.create ⟨[], []⟩ 5 3).2.children[i]? = none) ∧
      (InstanceGroup.create ⟨[], []⟩ 5 0).2.children = []) :=
  create_slots ⟨[], []⟩ 5 3

/-- C5: for every context and every group of either kind, whatever its slots
hold (null slots included), `buildAccel` returns normally, appends to the
device record exactly one call, the build call carrying the group's
identifier, and leaves the group (every slot, the slot count, the identifier)
and the rest of the context unchanged; groups with the same identifier issue
the same build call whatever their children or kind. -/
theorem buildAccel_spec (ctx : Context) (gg : GeomGroup) (ig : InstanceGroup) :
    GeomGroup.buildAccel ctx gg =
        ({ ctx with llo := ctx.llo ++ [LloCall.lloGroupAccelBuild gg.ID] }, gg) ∧
    InstanceGroup.buildAccel ctx ig =
        ({ ctx with llo := ctx.llo ++ [LloCall.lloGroupAccelBuild ig.ID] }, ig) ∧
    (GeomGroup.step (ctx, gg) Op.buildAccel).isOk = true ∧
    (GeomGroup.step (ctx, gg) Op.buildAccel).state = GeomGroup.buildAccel ctx gg ∧
    (gg.ID = ig.ID → (GeomGroup.buildAccel ctx gg).1 = (InstanceGroup.buildAccel ctx ig).1) ∧
    (∀ gg2 : GeomGroup, gg.ID = gg2.ID →
      (GeomGroup.buildAccel ctx gg).1 = (GeomGroup.buildAccel ctx gg2).1) ∧
    (∀ ig2 : InstanceGroup, ig.ID = ig2.ID →
      (InstanceGroup.buildAccel ctx ig).1 = (InstanceGroup.buildAccel ctx ig2).1) := by
  refine ⟨rfl, rfl, rfl, rfl, ?_, ?_, ?_⟩
  · intro h
    simp [GeomGroup.buildAccel, InstanceGroup.buildAccel, Group.buildAccel, h]
  · intro gg2 h
    simp [GeomGroup.buildAccel, Group.buildAccel, h]
  · intro ig2 h
    simp [InstanceGroup.buildAccel, Group.buildAccel, h]

theorem buildAccel_spec_witness :
    GeomGroup.buildAccel ⟨[], [4]⟩ ⟨⟨4⟩, [none, some ⟨7⟩]⟩ =
        (⟨[] ++ [LloCall.lloGroupAccelBuild 4], [4]⟩, ⟨⟨4⟩, [none, some ⟨7⟩]⟩) ∧
    InstanceGroup.buildAccel ⟨[], [4]⟩ ⟨⟨4⟩, [none]⟩ =
        (⟨[] ++ [LloCall.lloGroupAccelBuild 4], [4]⟩, ⟨⟨4⟩, [none]⟩) ∧
    (GeomGroup.step (⟨[], [4]⟩, ⟨⟨4⟩, [none, some ⟨7⟩]⟩) Op.buildAccel).isOk = true ∧
    (GeomGroup.step (⟨[], [4]⟩, ⟨⟨4⟩, [none, some ⟨7⟩]⟩) Op.buildAccel).state =
      GeomGroup.buildAccel ⟨[], [4]⟩ ⟨⟨4⟩, [none, some ⟨7⟩]⟩ ∧
    ((4 : Int) = 4 → (GeomGroup.buildAccel ⟨[], [4]⟩ ⟨⟨4⟩, [none, some ⟨7⟩]⟩).1 =
      (InstanceGroup.buildAccel ⟨[], [4]⟩ ⟨⟨4⟩, [none]⟩).1) ∧
    (∀ gg2 : GeomGroup, (4 : Int) = gg2.ID →
      (GeomGroup.buildAccel ⟨[], [4]⟩ ⟨⟨4⟩, [none, some ⟨7⟩]⟩).1 =
        (GeomGroup.buildAccel ⟨[], [4]⟩ gg2).1) ∧
    (∀ ig2 : InstanceGroup, (4 : Int) = ig2.ID →
      (InstanceGroup.buildAccel ⟨[], [4]⟩ ⟨⟨4⟩, [none]⟩).1 =
        (InstanceGroup.buildAccel ⟨[], [4]⟩ ig2).1) :=
  buildAccel_spec ⟨[], [4]⟩ ⟨⟨4⟩, [none, some ⟨7⟩]⟩ ⟨⟨4⟩, [none]⟩

/-- C7: for every `numChildren`, constructing a `TrianglesGroup` with
identifier `ID` appends to the device record exactly one call, the
create-triangles-geometry-group call with `(ID, null, numChildren)`, hence no
set-child and no build call, and the host-side group carries `ID` and has
exactly `numChildren` slots, all null. -/
theorem TrianglesGroup_create_spec (ctx : Context) (ID : Int) (numChildren : Nat) :
    (TrianglesGroup.create ctx ID numChildren).1.llo =
        ctx.llo ++ [LloCall.lloTrianglesGeomGroupCreate ID none numChildren] ∧
    (∀ c ∈ (TrianglesGroup.create ctx ID numChildren).1.llo.drop ctx.llo.length,
        c.isSetChild = false ∧ c.isBuild = false) ∧
    (TrianglesGroup.create ctx ID numChildren).2.ID = ID ∧
    (TrianglesGroup.create ctx ID numChildren).2.geometries = List.replicate numChildren none ∧
    (TrianglesGroup.create ctx ID numChildren).2.geometries.length = numChildren := by
  refine ⟨rfl, ?_, rfl, rfl, ?_⟩
  · simp [TrianglesGroup.create, GeomGroup.create, Group.create, LloCall.isSetChild,
      LloCall.isBuild]
  · simp [TrianglesGroup.create, GeomGroup.create]

theorem TrianglesGroup_create_spec_witness :
    (TrianglesGroup.create ⟨[], []⟩ 6 3).1.llo =
        [] ++ [LloCall.lloTrianglesGeomGroupCreate 6 none 3] ∧
    (∀ c ∈ (TrianglesGroup.create ⟨[], []⟩ 6 3).1.llo.drop ([] : List LloCall).length,
        c.isSetChild = false ∧ c.isBuild = false) ∧
    (TrianglesGroup.create ⟨[], []⟩ 6 3).2.ID = 6 ∧
    (TrianglesGroup.create ⟨[], []⟩ 6 3).2.geometries = List.replicate 3 none ∧
    (TrianglesGroup.create ⟨[], []⟩ 6 3).2.geometries.length = 3 :=
  TrianglesGroup_create_spec ⟨[], []⟩ 6 3

/-! ## Sequences of calls -/

/-- Running two sequences one after the other: the second runs from where the
first returned, and not at all when the first stopped the process. -/
theorem run_append (ops1 ops2 : List Op) (s : Context × GeomGroup) :
    GeomGroup.run (ops1 ++ ops2) s =
      match GeomGroup.run ops1 s with
      | Outcome.ok s1 => GeomGroup.run ops2 s1
      | Outcome.aborted f s1 => Outcome.aborted f s1 := by
  induction ops1 generalizing s with
  | nil => simp [GeomGroup.run]
  | cons op ops ih =>
    simp only [List.cons_append, GeomGroup.run]
    cases h : GeomGroup.step s op with
    | ok s1 => simpa using ih s1
    | aborted f s1 => simp

/-- The set-child calls of a record made of two parts are those of the parts. -/
theorem setChildCalls_append (log1 log2 : List LloCall) (groupID childID : Int) :
    setChildCalls (log1 ++ log2) groupID childID =
      setChildCalls log1 groupID childID ++ setChildCalls log2 groupID childID := by
  simp [setChildCalls]

/-- No identifier is listed exactly when the record holds no set-child call
for that group and index. -/
theorem setChildCalls_eq_nil_iff (log : List LloCall) (groupID childID : Int) :
    setChildCalls log groupID childID = [] ↔
      ∀ geomID : Int, LloCall.lloGeomGroupSetChild groupID childID geomID ∉ log := by
  induction log with
  | nil => simp [setChildCalls]
  | cons c log ih =>
    have hcons : setChildCalls (c :: log) groupID childID =
        setChildCalls [c] groupID childID ++ setChildCalls log groupID childID :=
      setChildCalls_append [c] log groupID childID
    rw [hcons, List.append_eq_nil, ih]
    constructor
    · rintro ⟨hc, hlog⟩ geomID hmem
      rcases List.mem_cons.mp hmem with heq | hin
      · subst heq
        simp [setChildCalls] at hc
      · exact hlog geomID hin
    · intro h
      refine ⟨?_, fun geomID hin => h geomID (List.mem_cons_of_mem _ hin)⟩
      cases c with
      | lloGroupAccelBuild g => simp [setChildCalls]
      | lloTrianglesGeomGroupCreate g i n => simp [setChildCalls]
      | lloGeomGroupSetChild g i geomID =>
        by_cases hgi : g = groupID ∧ i = childID
        · obtain ⟨hg, hi⟩ := hgi
          subst hg hi
          exact absurd (List.mem_cons_self _ _) (h geomID)
        · simp [setChildCalls, hgi]

/-- A freshly constructed group mirrors a device that has no set-child call
for its identifier. -/
theorem Mirror_create (ctx : Context) (ID : Int) (n : Nat)
    (hfresh : ∀ idx geomID : Int, LloCall.lloGeomGroupSetChild ID idx geomID ∉ ctx.llo) :
    Mirror ID n (GeomGroup.create ctx ID n) := by
  refine ⟨rfl, by simp [GeomGroup.create], ?_, ?_⟩
  · intro i hi
    have hnil : setChildCalls ctx.llo ID (i : Int) = [] :=
      (setChildCalls_eq_nil_iff ctx.llo ID i).mpr (fun g => hfresh i g)
    simp [GeomGroup.create, Group.create, List.getElem?_replicate, hi, hnil]
  · intro idx geomID hmem
    exact absurd hmem (hfresh idx geomID)

/-- The mirror invariant is kept by `buildAccel`. -/
theorem Mirror_buildAccel (ID : Int) (n : Nat) (s : Context × GeomGroup)
    (h : Mirror ID n s) : Mirror ID n (GeomGroup.buildAccel s.1 s.2) := by
  obtain ⟨hid, hlen, hslot, hidx⟩ := h
  refine ⟨hid, hlen, ?_, ?_⟩
  · intro i hi
    have := hslot i hi
    simpa [GeomGroup.buildAccel, Group.buildAccel, setChildCalls_append, setChildCalls] using this
  · intro idx geomID hmem
    simp only [GeomGroup.buildAccel, Group.buildAccel, List.mem_append, List.mem_singleton] at hmem
    rcases hmem with hmem | hmem
    · exact hidx idx geomID hmem
    · cases hmem

/-- The mirror invariant is kept by `setChild`, whether it returns or stops. -/
theorem Mirror_setChild (ID : Int) (n : Nat) (s : Context × GeomGroup) (childID : Int)
    (g : Geom) (h : Mirror ID n s) :
    Mirror ID n (GeomGroup.setChild s.1 s.2 childID (some g)).state := by
  obtain ⟨hid, hlen, hslot, hidx⟩ := h
  by_cases hin : 0 ≤ childID ∧ childID < (s.2.geometries.length : Int)
  · obtain ⟨h0, h1⟩ := hin
    rw [setChild_ok_eq s.1 s.2 childID g h0 h1]
    have h2 : childID.toNat < s.2.geometries.length := by omega
    refine ⟨hid, by simpa [Outcome.state] using hlen, ?_, ?_⟩
    · intro i hi
      have hprev := hslot i hi
      by_cases hic : (i : Int) = childID
      · have hi2 : childID.toNat = i := by omega
        simp [Outcome.state, setChildCalls_append, setChildCalls, hid, hic, List.getElem?_set,
          hi2, hlen, hi]
      · have hi2 : ¬ childID.toNat = i := by omega
        have hic2 : ¬ childID = (i : Int) := fun e => hic e.symm
        simpa [Outcome.state, setChildCalls_append, setChildCalls, hid, hic2,
          List.getElem?_set, hi2] using hprev
    · intro idx geomID hmem
      simp only [Outcome.state, List.mem_append, List.mem_singleton] at hmem
      rcases hmem with hmem | hmem
      · exact hidx idx geomID hmem
      · injection hmem with _ e2 _
        subst e2
        exact ⟨h0, by omega⟩
  · have hout : childID < 0 ∨ (s.2.geometries.length : Int) ≤ childID := by omega
    have hstate : (GeomGroup.setChild s.1 s.2 childID (some g)).state = s := by
      by_cases hneg : childID < 0
      · have : ¬ (childID ≥ 0) := by omega
        simp [GeomGroup.setChild, this, Outcome.state]
      · have h0 : childID ≥ 0 := by omega
        have h2 : ¬ (childID.toNat < s.2.geometries.length) := by omega
        simp [GeomGroup.setChild, h0, h2, Outcome.state]
    rw [hstate]
    exact ⟨hid, hlen, hslot, hidx⟩

/-- The mirror invariant is kept by every call. -/
theorem Mirror_step (ID : Int) (n : Nat) (s : Context × GeomGroup) (op : Op)
    (h : Mirror ID n s) : Mirror ID n (GeomGroup.step s op).state := by
  cases op with
  | setChild childID g => exact Mirror_setChild ID n s childID g h
  | buildAccel => exact Mirror_buildAccel ID n s h

/-- The mirror invariant is kept by every sequence of calls. -/
theorem Mirror_run (ID : Int) (n : Nat) (ops : List Op) (s : Context × GeomGroup)
    (h : Mirror ID n s) : Mirror ID n (GeomGroup.run ops s).state := by
  induction ops generalizing s with
  | nil => simpa [GeomGroup.run, Outcome.state] using h
  | cons op ops ih =>
    have hstep := Mirror_step ID n s op h
    simp only [GeomGroup.run]
    cases hs : GeomGroup.step s op with
    | ok s1 =>
      rw [hs] at hstep
      exact ih s1 hstep
    | aborted f s1 =>
      rw [hs] at hstep
      exact hstep

/-- C8: host bookkeeping mirrors the device in every reachable state.  Take a
freshly constructed `GeomGroup` with identifier `ID` and `n` slots, in a
context whose device has received no set-child call for `ID` yet, and run any
finite sequence of `setChild` calls (any index, any geometry) and `buildAccel`
calls on it; in the state where the run ends (normally, or at the call that
stopped the process) the group still has `n` slots and, for each index
`i < n`, slot `i` is null exactly when the device record holds no set-child
call for `(ID, i)`, and otherwise holds a geometry whose identifier is the
geometry identifier of the most recent set-child call for `(ID, i)`; every
set-child call recorded for `ID` carries an index in `[0, n)`. -/
theorem mirror_invariant (ctx : Context) (ID : Int) (n : Nat) (ops : List Op)
    (hfresh : ∀ idx geomID : Int, LloCall.lloGeomGroupSetChild ID idx geomID ∉ ctx.llo) :
    (GeomGroup.run ops (GeomGroup.create ctx ID n)).state.2.geometries.length = n ∧
    (∀ i : Nat, i < n →
      ((GeomGroup.run ops (GeomGroup.create ctx ID n)).state.2.geometries[i]? = some none ↔
        ∀ geomID : Int, LloCall.lloGeomGroupSetChild ID (i : Int) geomID ∉
          (GeomGroup.run ops (GeomGroup.create ctx ID n)).state.1.llo) ∧
      ((GeomGroup.run ops (GeomGroup.create ctx ID n)).state.2.geometries[i]? = some none ∨
        ∃ g : Geom,
          (GeomGroup.run ops (GeomGroup.create ctx ID n)).state.2.geometries[i]? =
            some (some g) ∧
          (setChildCalls (GeomGroup.run ops (GeomGroup.create ctx ID n)).state.1.llo ID
            (i : Int)).getLast? = some g.ID)) ∧
    (∀ idx geomID : Int, LloCall.lloGeomGroupSetChild ID idx geomID ∈
        (GeomGroup.run ops (GeomGroup.create ctx ID n)).state.1.llo →
      0 ≤ idx ∧ idx < (n : Int)) := by
  obtain ⟨_, hlen, hslot, hidx⟩ :=
    Mirror_run ID n ops (GeomGroup.create ctx ID n) (Mirror_create ctx ID n hfresh)
  refine ⟨hlen, ?_, hidx⟩
  intro i hi
  have hm := hslot i hi
  have hlt : i < (GeomGroup.run ops (GeomGroup.create ctx ID n)).state.2.geometries.length := by
    omega
  rw [← setChildCalls_eq_nil_iff]
  rw [List.getElem?_eq_getElem hlt] at hm ⊢
  cases hy : (GeomGroup.run ops (GeomGroup.create ctx ID n)).state.2.geometries[i] with
  | none =>
    rw [hy] at hm
    have hnil : setChildCalls (GeomGroup.run ops (GeomGroup.create ctx ID n)).state.1.llo ID
        (i : Int) = [] := by
      simpa using hm.symm
    simp [hnil]
  | some g =>
    rw [hy] at hm
    have hlast : (setChildCalls (GeomGroup.run ops (GeomGroup.create ctx ID n)).state.1.llo ID
        (i : Int)).getLast? = some g.ID := by
      simpa using hm.symm
    have hne : setChildCalls (GeomGroup.run ops (GeomGroup.create ctx ID n)).state.1.llo ID
        (i : Int) ≠ [] := by
      intro hnil
      rw [hnil] at hlast
      simp at hlast
    simp [hne, hlast]

theorem mirror_invariant_witness :
    (∀ idx geomID : Int, LloCall.lloGeomGroupSetChild 5 idx geomID ∉
        [LloCall.lloGeomGroupSetChild 4 0 7]) ∧
    ((GeomGroup.run [Op.setChild 1 ⟨7⟩, Op.buildAccel, Op.setChild 1 ⟨8⟩, Op.setChild 2 ⟨9⟩,
        Op.setChild 0 ⟨3⟩] (GeomGroup.create ⟨[LloCall.lloGeomGroupSetChild 4 0 7], [4]⟩ 5 2)).state.2.geometries.length = 2 ∧
    (∀ i : Nat, i < 2 →
      ((GeomGroup.run [Op.setChild 1 ⟨7⟩, Op.buildAccel, Op.setChild 1 ⟨8⟩, Op.setChild 2 ⟨9⟩,
        Op.setChild 0 ⟨3⟩] (GeomGroup.create ⟨[LloCall.lloGeomGroupSetChild 4 0 7], [4]⟩ 5 2)).state.2.geometries[i]? = some none ↔
        ∀ geomID : Int, LloCall.lloGeomGroupSetChild 5 (i : Int) geomID ∉
          (GeomGroup.run [Op.setChild 1 ⟨7⟩, Op.buildAccel, Op.setChild 1 ⟨8⟩, Op.setChild 2 ⟨9⟩,
        Op.setChild 0 ⟨3⟩] (GeomGroup.create ⟨[LloCall.lloGeomGroupSetChild 4 0 7], [4]⟩ 5 2)).state.1.llo) ∧
      ((GeomGroup.run [Op.setChild 1 ⟨7⟩, Op.buildAccel, Op.setChild 1 ⟨8⟩, Op.setChild 2 ⟨9⟩,
        Op.setChild 0 ⟨3⟩] (GeomGroup.create ⟨[LloCall.lloGeomGroupSetChild 4 0 7], [4]⟩ 5 2)).state.2.geometries[i]? = some none ∨
        ∃ g : Geom,
          (GeomGroup.run [Op.setChild 1 ⟨7⟩, Op.buildAccel, Op.setChild 1 ⟨8⟩, Op.setChild 2 ⟨9⟩,
        Op.setChild 0 ⟨3⟩] (GeomGroup.create ⟨[LloCall.lloGeomGroupSetChild 4 0 7], [4]⟩ 5 2)).state.2.geometries[i]? =
            some (some g) ∧
          (setChildCalls (GeomGroup.run [Op.setChild 1 ⟨7⟩, Op.buildAccel, Op.setChild 1 ⟨8⟩, Op.setChild 2 ⟨9⟩,
        Op.setChild 0 ⟨3⟩] (GeomGroup.create ⟨[LloCall.lloGeomGroupSetChild 4 0 7], [4]⟩ 5 2)).state.1.llo 5
            (i : Int)).getLast? = some g.ID)) ∧
    (∀ idx geomID : Int, LloCall.lloGeomGroupSetChild 5 idx geomID ∈
        (GeomGroup.run [Op.setChild 1 ⟨7⟩, Op.buildAccel, Op.setChild 1 ⟨8⟩, Op.setChild 2 ⟨9⟩,
        Op.setChild 0 ⟨3⟩] (GeomGroup.create ⟨[LloCall.lloGeomGroupSetChild 4 0 7], [4]⟩ 5 2)).state.1.llo →
      0 ≤ idx ∧ idx < ((2 : Nat) : Int))) :=
  ⟨by simp, mirror_invariant ⟨[LloCall.lloGeomGroupSetChild 4 0 7], [4]⟩ 5 2
    [Op.setChild 1 ⟨7⟩, Op.buildAccel, Op.setChild 1 ⟨8⟩, Op.setChild 2 ⟨9⟩, Op.setChild 0 ⟨3⟩]
    (by simp)⟩

/-! ## Populating a group in any order -/

/-- Stores into slots keep the slot count. -/
theorem foldl_set_length (calls : List (Nat × Geom)) (slots : List GeomSP) :
    (calls.foldl (fun sl c => sl.set c.1 (some c.2)) slots).length = slots.length := by
  induction calls generalizing slots with
  | nil => rfl
  | cons c calls ih => simp [ih]

/-- A slot that no call indexes keeps its content. -/
theorem foldl_set_untouched (calls : List (Nat × Geom)) (slots : List GeomSP) (j : Nat)
    (hj : j ∉ calls.map Prod.fst) :
    (calls.foldl (fun sl c => sl.set c.1 (some c.2)) slots)[j]? = slots[j]? := by
  induction calls generalizing slots with
  | nil => rfl
  | cons c calls ih =>
    simp only [List.map_cons, List.mem_cons, not_or] at hj
    simp only [List.foldl_cons]
    rw [ih _ hj.2]
    simp [List.getElem?_set, Ne.symm hj.1]

/-- When no index is used twice, a slot indexed by a call holds the geometry of
that call afterwards. -/
theorem foldl_set_assigned (calls : List (Nat × Geom)) (slots : List GeomSP) (j : Nat) (g : Geom)
    (hnodup : (calls.map Prod.fst).Nodup) (hmem : (j, g) ∈ calls) (hj : j < slots.length) :
    (calls.foldl (fun sl c => sl.set c.1 (some c.2)) slots)[j]? = some (some g) := by
  induction calls generalizing slots with
  | nil => cases hmem
  | cons c calls ih =>
    simp only [List.map_cons, List.nodup_cons] at hnodup
    simp only [List.foldl_cons]
    rcases List.mem_cons.mp hmem with heq | hin
    · subst heq
      rw [foldl_set_untouched calls _ j hnodup.1]
      simp [List.getElem?_set, hj]
    · exact ih _ hnodup.2 hin (by simpa using hj)

/-- A sequence of in-range `setChild` calls returns normally, with the stores
applied in order and one set-child call recorded per call, in order. -/
theorem run_setChild_calls (calls : List (Nat × Geom)) (s : Context × GeomGroup)
    (hin : ∀ c ∈ calls, c.1 < s.2.geometries.length) :
    GeomGroup.run (calls.map (fun c => Op.setChild (c.1 : Int) c.2)) s =
      Outcome.ok
        ({ s.1 with llo := s.1.llo ++
            calls.map (fun c => LloCall.lloGeomGroupSetChild s.2.ID (c.1 : Int) c.2.ID) },
         { s.2 with geometries :=
            (calls.foldl (fun sl c => sl.set c.1 (some c.2)) s.2.geometries) }) := by
  induction calls generalizing s with
  | nil => simp [GeomGroup.run]
  | cons c calls ih =>
    have hc : c.1 < s.2.geometries.length := hin c (List.mem_cons_self _ _)
    have h0 : (0 : Int) ≤ (c.1 : Int) := by omega
    have h1 : (c.1 : Int) < (s.2.geometries.length : Int) := by omega
    simp only [List.map_cons, GeomGroup.run, GeomGroup.step]
    rw [setChild_ok_eq s.1 s.2 (c.1 : Int) c.2 h0 h1]
    simp only []
    rw [ih]
    · simp
    · intro d hd
      simpa using hin d (List.mem_cons_of_mem _ hd)

/-- There is no build call among recorded set-child calls. -/
theorem filter_isBuild_setChild_calls (ID : Int) (calls : List (Nat × Geom)) :
    (calls.map (fun c => LloCall.lloGeomGroupSetChild ID (c.1 : Int) c.2.ID)).filter
      LloCall.isBuild = [] := by
  induction calls with
  | nil => rfl
  | cons c calls ih => simpa [List.filter_cons, LloCall.isBuild] using ih

/-- C6: for every list `gs` of geometries (`n = gs.length`) and every order
`calls` in which the `n` calls `setChild(i, gs[i])`, one per index, are made on
a freshly constructed `TrianglesGroup` with identifier `ID` and `n` slots,
followed by one `buildAccel`: the run returns normally, the recorded children
are exactly `gs`, and the device record consists of what it held before, the
create call, the `n` set-child calls in the order made, and last one build
call carrying `ID`, which is the only build call issued since construction. -/
theorem populate_then_build (ctx : Context) (ID : Int) (gs : List Geom)
    (calls : List (Nat × Geom)) (hperm : calls.Perm gs.enum) :
    ∃ (ctx2 : Context) (g2 : GeomGroup),
      GeomGroup.run
          (calls.map (fun c => Op.setChild (c.1 : Int) c.2) ++ [Op.buildAccel])
          ((TrianglesGroup.create ctx ID gs.length).1,
           (TrianglesGroup.create ctx ID gs.length).2.toGeomGroup) = Outcome.ok (ctx2, g2) ∧
      g2.geometries = gs.map some ∧
      g2.ID = ID ∧
      ctx2.llo = ctx.llo ++ [LloCall.lloTrianglesGeomGroupCreate ID none gs.length] ++
          calls.map (fun c => LloCall.lloGeomGroupSetChild ID (c.1 : Int) c.2.ID) ++
          [LloCall.lloGroupAccelBuild ID] ∧
      (ctx2.llo.drop ctx.llo.length).filter LloCall.isBuild = [LloCall.lloGroupAccelBuild ID] ∧
      ctx2.llo.getLast? = some (LloCall.lloGroupAccelBuild ID) := by
  have hmemlt : ∀ c ∈ calls, c.1 < gs.length := by
    intro c hc
    have hc2 : (c.1, c.2) ∈ gs.enum := (hperm.mem_iff).mp hc
    have hget : gs[c.1]? = some c.2 := List.mk_mem_enum_iff_getElem?.mp hc2
    exact (List.getElem?_eq_some_iff.mp hget).1
  have hnodup : (calls.map Prod.fst).Nodup := by
    have hp : (calls.map Prod.fst).Perm (gs.enum.map Prod.fst) := hperm.map Prod.fst
    rw [List.enum_map_fst] at hp
    exact hp.nodup_iff.mpr (List.nodup_range gs.length)
  have hin : ∀ c ∈ calls,
      c.1 < ((TrianglesGroup.create ctx ID gs.length).1,
        (TrianglesGroup.create ctx ID gs.length).2.toGeomGroup).2.geometries.length := by
    intro c hc
    simpa [TrianglesGroup.create, GeomGroup.create] using hmemlt c hc
  have hrun := run_setChild_calls calls
    ((TrianglesGroup.create ctx ID gs.length).1,
      (TrianglesGroup.create ctx ID gs.length).2.toGeomGroup) hin
  have hfull := run_append (calls.map (fun c => Op.setChild (c.1 : Int) c.2)) [Op.buildAccel]
    ((TrianglesGroup.create ctx ID gs.length).1,
      (TrianglesGroup.create ctx ID gs.length).2.toGeomGroup)
  rw [hrun] at hfull
  simp only [GeomGroup.run, GeomGroup.step] at hfull
  refine ⟨_, _, hfull, ?_, ?_, ?_, ?_, ?_⟩
  · apply List.ext_getElem?
    intro j
    change (calls.foldl (fun sl c => sl.set c.1 (some c.2))
      (List.replicate gs.length none))[j]? = (gs.map some)[j]?
    by_cases hj : j < gs.length
    · have hmem : (j, gs[j]) ∈ calls :=
        (hperm.mem_iff).mpr (List.mk_mem_enum_iff_getElem?.mpr (List.getElem?_eq_getElem hj))
      rw [foldl_set_assigned calls (List.replicate gs.length none) j gs[j] hnodup hmem
        (by simpa using hj)]
      simp [hj]
    · have hlen := foldl_set_length calls (List.replicate gs.length none)
      have hle : gs.length ≤ j := by omega
      rw [List.getElem?_eq_none (by rw [hlen]; simpa using hle),
        List.getElem?_eq_none (by simpa using hle)]
  · rfl
  · simp [GeomGroup.buildAccel, Group.buildAccel, TrianglesGroup.create, GeomGroup.create,
      Group.create]
  · simp [GeomGroup.buildAccel, Group.buildAccel, TrianglesGroup.create, GeomGroup.create,
      Group.create, List.filter_cons, LloCall.isBuild, filter_isBuild_setChild_calls]
  · change (_ ++ [LloCall.lloGroupAccelBuild ID]).getLast? = _
    exact List.getLast?_concat _

theorem populate_then_build_witness :
    ([(1, ⟨11⟩), (2, ⟨12⟩), (0, ⟨10⟩)] : List (Nat × Geom)).Perm
        ([⟨10⟩, ⟨11⟩, ⟨12⟩] : List Geom).enum ∧
    ∃ (ctx2 : Context) (g2 : GeomGroup),
      GeomGroup.run
          (([(1, ⟨11⟩), (2, ⟨12⟩), (0, ⟨10⟩)] : List (Nat × Geom)).map
            (fun c => Op.setChild (c.1 : Int) c.2) ++ [Op.buildAccel])
          ((TrianglesGroup.create ⟨[], []⟩ 6 ([⟨10⟩, ⟨11⟩, ⟨12⟩] : List Geom).length).1,
           (TrianglesGroup.create ⟨[], []⟩ 6
            ([⟨10⟩, ⟨11⟩, ⟨12⟩] : List Geom).length).2.toGeomGroup) = Outcome.ok (ctx2, g2) ∧
      g2.geometries = ([⟨10⟩, ⟨11⟩, ⟨12⟩] : List Geom).map some ∧
      g2.ID = 6 ∧
      ctx2.llo = [] ++
          [LloCall.lloTrianglesGeomGroupCreate 6 none ([⟨10⟩, ⟨11⟩, ⟨12⟩] : List Geom).length] ++
          ([(1, ⟨11⟩), (2, ⟨12⟩), (0, ⟨10⟩)] : List (Nat × Geom)).map
            (fun c => LloCall.lloGeomGroupSetChild 6 (c.1 : Int) c.2.ID) ++
          [LloCall.lloGroupAccelBuild 6] ∧
      (ctx2.llo.drop ([] : List LloCall).length).filter LloCall.isBuild =
        [LloCall.lloGroupAccelBuild 6] ∧
      ctx2.llo.getLast? = some (LloCall.lloGroupAccelBuild 6) :=
  ⟨by decide, populate_then_build ⟨[], []⟩ 6 [⟨10⟩, ⟨11⟩, ⟨12⟩]
    [(1, ⟨11⟩), (2, ⟨12⟩), (0, ⟨10⟩)] (by decide)⟩

/-! ## The checks are fatal -/

/-- C9: each of `OPTIX_CHECK`, `OPTIX_CHECK_LOG`, `CUDA_CHECK`, `CUDA_CHECK2`
and `CUDA_SYNC_CHECK`, for every result code of its checked call (for
`CUDA_SYNC_CHECK` the call `cudaGetLastError()` made after
`cudaDeviceSynchronize()`), terminates the process if and only if the result
differs from the success code; it then exits with status 2 after appending a
diagnostic to `stderr`; on the success code it writes nothing and the process
runs on.  The checked call is evaluated once and every result is covered by
one of the two cases, so no failure is retried or passed over. -/
theorem checks_fatal {δ : Type} (OPTIX_SUCCESS cudaSuccess : Int)
    (cudaGetErrorString : Int → String) (call cudaDeviceSynchronize cudaGetLastError : δ → Int × δ)
    (callText log file : String) (loc : Option String) (line : Nat) (p : Process δ) :
    FatalCheck (call p.dev).1 OPTIX_SUCCESS (call p.dev).2 p
      (OPTIX_CHECK OPTIX_SUCCESS call callText line p) ∧
    FatalCheck (call p.dev).1 OPTIX_SUCCESS (call p.dev).2 p
      (OPTIX_CHECK_LOG OPTIX_SUCCESS call callText line log p) ∧
    FatalCheck (call p.dev).1 cudaSuccess (call p.dev).2 p
      (CUDA_CHECK cudaSuccess cudaGetErrorString call callText line p) ∧
    FatalCheck (call p.dev).1 cudaSuccess (call p.dev).2 p
      (CUDA_CHECK2 cudaSuccess cudaGetErrorString loc call callText line p) ∧
    FatalCheck (cudaGetLastError (cudaDeviceSynchronize p.dev).2).1 cudaSuccess
      (cudaGetLastError (cudaDeviceSynchronize p.dev).2).2 p
      (CUDA_SYNC_CHECK cudaSuccess cudaGetErrorString cudaDeviceSynchronize cudaGetLastError
        file line p) := by
  refine ⟨?_, ?_, ?_, ?_, ?_⟩
  · by_cases h : (call p.dev).1 = OPTIX_SUCCESS
    · simp [FatalCheck, OPTIX_CHECK, Step.terminated, h]
    · simp [FatalCheck, OPTIX_CHECK, Step.terminated, h]
  · by_cases h : (call p.dev).1 = OPTIX_SUCCESS
    · simp [FatalCheck, OPTIX_CHECK_LOG, Step.terminated, h]
    · simp [FatalCheck, OPTIX_CHECK_LOG, Step.terminated, h]
  · by_cases h : (call p.dev).1 = cudaSuccess
    · simp [FatalCheck, CUDA_CHECK, Step.terminated, h]
    · simp [FatalCheck, CUDA_CHECK, Step.terminated, h]
  · by_cases h : (call p.dev).1 = cudaSuccess
    · simp [FatalCheck, CUDA_CHECK2, Step.terminated, h]
    · cases loc with
      | none => simp [FatalCheck, CUDA_CHECK2, Step.terminated, h]
      | some w => simp [FatalCheck, CUDA_CHECK2, Step.terminated, h]
  · by_cases h : (cudaGetLastError (cudaDeviceSynchronize p.dev).2).1 = cudaSuccess
    · simp [FatalCheck, CUDA_SYNC_CHECK, Step.terminated, h]
    · simp [FatalCheck, CUDA_SYNC_CHECK, Step.terminated, h]

theorem checks_fatal_witness :
    FatalCheck ((fun d : Nat => ((7 : Int), d + 1)) 0).1 0 ((fun d : Nat => ((7 : Int), d + 1)) 0).2
      ⟨0, []⟩ (OPTIX_CHECK 0 (fun d : Nat => ((7 : Int), d + 1)) "optixInit()" 120 ⟨0, []⟩) ∧
    FatalCheck ((fun d : Nat => ((7 : Int), d + 1)) 0).1 0 ((fun d : Nat => ((7 : Int), d + 1)) 0).2
      ⟨0, []⟩
      (OPTIX_CHECK_LOG 0 (fun d : Nat => ((7 : Int), d + 1)) "optixInit()" 120 "no device"
        ⟨0, []⟩) ∧
    FatalCheck ((fun d : Nat => ((7 : Int), d + 1)) 0).1 0 ((fun d : Nat => ((7 : Int), d + 1)) 0).2
      ⟨0, []⟩
      (CUDA_CHECK 0 (fun _ => "unknown error") (fun d : Nat => ((7 : Int), d + 1)) "optixInit()"
        120 ⟨0, []⟩) ∧
    FatalCheck ((fun d : Nat => ((7 : Int), d + 1)) 0).1 0 ((fun d : Nat => ((7 : Int), d + 1)) 0).2
      ⟨0, []⟩
      (CUDA_CHECK2 0 (fun _ => "unknown error") (some "build") (fun d : Nat => ((7 : Int), d + 1))
        "optixInit()" 120 ⟨0, []⟩) ∧
    FatalCheck
      ((fun d : Nat => ((0 : Int), d + 1)) ((fun d : Nat => ((3 : Int), d + 1)) 0).2).1 0
      ((fun d : Nat => ((0 : Int), d + 1)) ((fun d : Nat => ((3 : Int), d + 1)) 0).2).2 ⟨0, []⟩
      (CUDA_SYNC_CHECK 0 (fun _ => "unknown error") (fun d : Nat => ((3 : Int), d + 1))
        (fun d : Nat => ((0 : Int), d + 1)) "Group.cpp" 120 ⟨0, []⟩) :=
  checks_fatal 0 0 (fun _ => "unknown error") (fun d : Nat => ((7 : Int), d + 1))
    (fun d : Nat => ((3 : Int), d + 1)) (fun d : Nat => ((0 : Int), d + 1)) "optixInit()"
    "no device" "Group.cpp" (some "build") 120 ⟨0, []⟩

/-! ## What the diagnostics carry -/

/-- Counterexample to C10 as stated, at `CUDA_SYNC_CHECK`: with
`cudaGetLastError()` returning the non-success code 700 the check terminates
the process, and what it wrote carries neither the numeric code 700 nor the
text of any call. -/
theorem CUDA_SYNC_CHECK_omits_code_and_call :
    (CUDA_SYNC_CHECK 0 (fun _ => "an illegal memory access was encountered")
        (fun d : Unit => ((0 : Int), d)) (fun d : Unit => ((700 : Int), d)) "Group.cpp" 24
        ⟨(), []⟩).terminated = true ∧
    ¬ carries
        (written ⟨(), []⟩
          (CUDA_SYNC_CHECK 0 (fun _ => "an illegal memory access was encountered")
            (fun d : Unit => ((0 : Int), d)) (fun d : Unit => ((700 : Int), d)) "Group.cpp" 24
            ⟨(), []⟩))
        (Arg.code 700) ∧
    ¬ ∃ text : String,
        carries
          (written ⟨(), []⟩
            (CUDA_SYNC_CHECK 0 (fun _ => "an illegal memory access was encountered")
              (fun d : Unit => ((0 : Int), d)) (fun d : Unit => ((700 : Int), d)) "Group.cpp" 24
              ⟨(), []⟩))
          (Arg.callText text) := by
  simp [CUDA_SYNC_CHECK, Step.terminated, written, Step.proc, carries]

/-- C10, amended: for `OPTIX_CHECK`, `OPTIX_CHECK_LOG`, `CUDA_CHECK` and
`CUDA_CHECK2` and every non-success result, what the check writes before
terminating carries the text of the failed call, the numeric result code and
the line number of the check; for `CUDA_SYNC_CHECK` and every non-success
result of `cudaGetLastError()` the check writes exactly one diagnostic, which
carries the file name and line number of the check and the error string of the
code, and no call text and no numeric code. -/
theorem diagnostics_carry {δ : Type} (OPTIX_SUCCESS cudaSuccess : Int)
    (cudaGetErrorString : Int → String) (call cudaDeviceSynchronize cudaGetLastError : δ → Int × δ)
    (callText log file : String) (loc : Option String) (line : Nat) (p : Process δ) :
    ((call p.dev).1 ≠ OPTIX_SUCCESS →
      ∀ a ∈ [Arg.callText callText, Arg.code (call p.dev).1, Arg.line line],
        carries (written p (OPTIX_CHECK OPTIX_SUCCESS call callText line p)) a) ∧
    ((call p.dev).1 ≠ OPTIX_SUCCESS →
      ∀ a ∈ [Arg.callText callText, Arg.code (call p.dev).1, Arg.line line],
        carries (written p (OPTIX_CHECK_LOG OPTIX_SUCCESS call callText line log p)) a) ∧
    ((call p.dev).1 ≠ cudaSuccess →
      ∀ a ∈ [Arg.callText callText, Arg.code (call p.dev).1, Arg.line line],
        carries (written p (CUDA_CHECK cudaSuccess cudaGetErrorString call callText line p)) a) ∧
    ((call p.dev).1 ≠ cudaSuccess →
      ∀ a ∈ [Arg.callText callText, Arg.code (call p.dev).1, Arg.line line],
        carries
          (written p (CUDA_CHECK2 cudaSuccess cudaGetErrorString loc call callText line p)) a) ∧
    ((cudaGetLastError (cudaDeviceSynchronize p.dev).2).1 ≠ cudaSuccess →
      written p
          (CUDA_SYNC_CHECK cudaSuccess cudaGetErrorString cudaDeviceSynchronize cudaGetLastError
            file line p) =
        [{ fmt := "error (%s: line %d): %s\n"
           args := [Arg.file file, Arg.line line,
             Arg.errorString
               (cudaGetErrorString (cudaGetLastError (cudaDeviceSynchronize p.dev).2).1)] }] ∧
      (∀ text : String, ¬ carries
        (written p
          (CUDA_SYNC_CHECK cudaSuccess cudaGetErrorString cudaDeviceSynchronize cudaGetLastError
            file line p))
        (Arg.callText text)) ∧
      (∀ value : Int, ¬ carries
        (written p
          (CUDA_SYNC_CHECK cudaSuccess cudaGetErrorString cudaDeviceSynchronize cudaGetLastError
            file line p))
        (Arg.code value))) := by
  refine ⟨?_, ?_, ?_, ?_, ?_⟩
  · intro h
    simp [OPTIX_CHECK, written, Step.proc, carries, h]
  · intro h
    simp [OPTIX_CHECK_LOG, written, Step.proc, carries, h]
  · intro h
    simp [CUDA_CHECK, written, Step.proc, carries, h]
  · intro h
    cases loc with
    | none => simp [CUDA_CHECK2, written, Step.proc, carries, h]
    | some w => simp [CUDA_CHECK2, written, Step.proc, carries, h]
  · intro h
    simp [CUDA_SYNC_CHECK, written, Step.proc, carries, h]

theorem diagnostics_carry_witness :
    carries
      (written ⟨0, []⟩ (OPTIX_CHECK 0 (fun d : Nat => ((7 : Int), d + 1)) "optixInit()" 120
        ⟨0, []⟩))
      (Arg.code 7) ∧
    carries
      (written ⟨0, []⟩
        (CUDA_CHECK2 0 (fun _ => "unknown error") (some "build")
          (fun d : Nat => ((7 : Int), d + 1)) "optixInit()" 120 ⟨0, []⟩))
      (Arg.callText "optixInit()") ∧
    written ⟨0, []⟩
        (CUDA_SYNC_CHECK 0 (fun _ => "unknown error") (fun d : Nat => ((0 : Int), d + 1))
          (fun d : Nat => ((3 : Int), d + 1)) "Group.cpp" 120 ⟨0, []⟩) =
      [{ fmt := "error (%s: line %d): %s\n"
         args := [Arg.file "Group.cpp", Arg.line 120, Arg.errorString "unknown error"] }] :=
  ⟨(diagnostics_carry 0 0 (fun _ => "unknown error") (fun d : Nat => ((7 : Int), d + 1))
      (fun d : Nat => ((0 : Int), d + 1)) (fun d : Nat => ((3 : Int), d + 1)) "optixInit()"
      "no device" "Group.cpp" (some "build") 120 ⟨0, []⟩).1 (by decide) (Arg.code 7) (by simp),
   (diagnostics_carry 0 0 (fun _ => "unknown error") (fun d : Nat => ((7 : Int), d + 1))
      (fun d : Nat => ((0 : Int), d + 1)) (fun d : Nat => ((3 : Int), d + 1)) "optixInit()"
      "no device" "Group.cpp" (some "build") 120 ⟨0, []⟩).2.2.2.1 (by decide)
      (Arg.callText "optixInit()") (by simp),
   ((diagnostics_carry 0 0 (fun _ => "unknown error") (fun d : Nat => ((7 : Int), d + 1))
      (fun d : Nat => ((0 : Int), d + 1)) (fun d : Nat => ((3 : Int), d + 1)) "optixInit()"
      "no device" "Group.cpp" (some "build") 120 ⟨0, []⟩).2.2.2.2 (by decide)).1⟩

end owl
